import Mathlib

/-!
Shallow embedding of the omero-oauth request handlers
(src/omero_oauth/views.py).

The handlers are glue around three external collaborators: the OAuth2
client library, the image server's administrative gateway, and the web
framework's connector.  Each collaborator is modelled as an oracle
record of deterministic functions, and each handler is a pure Lean
function that returns its outcome together with the list of observable
external calls (the trace) it performed, in order.
-/

set_option autoImplicit false

namespace OmeroOauth

/-- Python exception kinds raised by the handlers.  PermissionDenied is
the access-denied outcome; keyError models an unchecked KeyError from
str.format; exc models a generic Exception. -/
inductive Err where
  | permissionDenied (msg : String)
  | keyError (key : String)
  | exc (msg : String)
  deriving DecidableEq

/-- Observable external calls performed while handling a request:
network calls to the identity provider, administrative calls to the
image server, and framework connector calls. -/
inductive Event where
  | fetchToken (tokenUrl clientId clientSecret state code : String)
  | getUserinfo (userinfoUrl : String)
  | adminConnect
  | adminClose
  | getObject (otype attrName attrValue : String)
  | createGroup (name perms : String)
  | createExperimenter (omeName firstName lastName email : String)
      (isAdmin isActive : Bool) (defaultGroupId : Nat)
      (otherGroupIds : List Nat) (password : Option String)
  | createSessionWithTimeout (principalName eventType : String) (timeoutMs : Nat)
  | checkVersion (useragent : String)
  | createConnection (useragent username password userip : String)
  | upgradeCheck (url : String)
  | connClose
  deriving DecidableEq

/-- True for the createExperimenter (user creation) call. -/
def Event.isUserCreate : Event → Bool
  | .createExperimenter .. => true
  | _ => false

/-- True for the createGroup call. -/
def Event.isGroupCreate : Event → Bool
  | .createGroup .. => true
  | _ => false

/-- True for the administrative connect call. -/
def Event.isAdminConnect : Event → Bool
  | .adminConnect => true
  | _ => false

/-- True for the administrative close (connection release) call. -/
def Event.isAdminClose : Event → Bool
  | .adminClose => true
  | _ => false

/-- True for session issuance on the image server. -/
def Event.isSessionIssue : Event → Bool
  | .createSessionWithTimeout .. => true
  | _ => false

/-- True for network calls to the identity provider. -/
def Event.isProviderCall : Event → Bool
  | .fetchToken .. => true
  | .getUserinfo .. => true
  | _ => false

/-- True for any administrative call to the image server. -/
def Event.isAdminCall : Event → Bool
  | .adminConnect => true
  | .adminClose => true
  | .getObject .. => true
  | .createGroup .. => true
  | .createExperimenter .. => true
  | .createSessionWithTimeout .. => true
  | _ => false

/-- Template context rendered into the sign-in page. -/
structure PageContext where
  authorizationUrl : String
  clientName : String
  loginLogo : Option String
  deriving DecidableEq

/-- The HTTP response a handler produces: a redirect or a rendered page. -/
inductive Response where
  | redirect (url : String)
  | page (templateName : String) (ctx : PageContext)
  deriving DecidableEq

/-- The per-browser web session dictionary, restricted to the two keys
this code touches: the stored CSRF state and the stored connector. -/
structure Session where
  oauthState : Option String
  connector : Bool
  deriving DecidableEq

/-- The incoming HTTP request: the GET query parameters the provider
redirect carries (state, code) and the client IP. -/
structure Request where
  getState : Option String
  getCode : Option String
  clientIp : String
  deriving DecidableEq

/-- Operator configuration (the oauth_settings module). -/
structure OauthSettings where
  clientId : String
  clientScope : String
  clientSecret : String
  clientName : String
  urlAuthorization : String
  urlToken : String
  urlUserinfo : String
  userNameTemplate : String
  userEmailTemplate : String
  userFirstnameTemplate : String
  userLastnameTemplate : String
  host : String
  port : Nat
  adminUsername : String
  adminPassword : String
  groupName : String
  groupNameTemplatetime : Bool
  groupPerms : String
  userTimeout : Nat

/-- Oracle for the OAuth2 client library and the identity provider:
the authorization URL and the freshly generated CSRF state it returns,
the provider's response to a token exchange, and the userinfo payload
(a finite string-to-string field mapping of the JSON object). -/
structure OAuthEnv where
  authorizationUrl : String
  state : String
  fetchToken : String → String → Except String String
  userinfo : List (String × String)

/-- Oracle for the image server's administrative gateway. -/
structure AdminEnv where
  connectOk : Bool
  lookupExperimenter : String → Option Nat
  lookupGroup : String → Option Nat
  createGroupId : Nat
  createUserId : Nat
  sessionUuid : String → Except String String
  strftimeNow : String → String

/-- Framework settings (the django settings module). -/
structure Settings where
  loginRedirectParse : Except String String
  webindexUrl : String
  secure : Bool
  checkVersion : Bool
  upgradesUrl : Option String
  loginLogo : Option String

/-- Oracle for the framework's existing-session lookup
(login_required().get_connection): it may raise, or report whether a
valid connection exists for the request. -/
structure FrameworkEnv where
  getConnection : Except String Bool

/-- Oracle for the framework connector used at login time. -/
structure ConnectorEnv where
  checkVersionOk : Bool
  createConnectionOk : Bool
  connUpgradesUrl : String

/-- The useragent constant. -/
def USERAGENT : String := "OMERO.oauth"

/-- First-match lookup of a field in the userinfo mapping. -/
def lookupField : List (String × String) → String → Option String
  | [], _ => none
  | (k, v) :: rest, f => if k = f then some v else lookupField rest f

/-- One step of Python str.format over the template characters.  The
second argument is none in literal mode and some acc while reading a
field name between braces.  Named fields are substituted from the
mapping, a referenced field absent from the mapping raises KeyError,
doubled braces are escapes, and a lone brace is a ValueError, matching
the str.format subset the configured templates use. -/
def formatAux (args : List (String × String)) : List Char → Option String → Except Err String
  | [], none => .ok ""
  | [], some _ => .error (.exc "Single brace encountered in format string")
  | c :: cs, some acc =>
    if c = '}' then
      match lookupField args acc with
      | none => .error (.keyError acc)
      | some v => (formatAux args cs none).map (fun s => v ++ s)
    else if c = '{' then
      .error (.exc "unexpected brace in field name")
    else
      formatAux args cs (some (acc.push c))
  | c :: cs, none =>
    if c = '{' then
      match cs with
      | d :: ds =>
        if d = '{' then
          (formatAux args ds none).map (fun s => String.singleton c ++ s)
        else
          formatAux args (d :: ds) (some "")
      | [] => .error (.exc "Single brace encountered in format string")
    else if c = '}' then
      match cs with
      | d :: ds =>
        if d = '}' then
          (formatAux args ds none).map (fun s => String.singleton c ++ s)
        else
          .error (.exc "Single brace encountered in format string")
      | [] => .error (.exc "Single brace encountered in format string")
    else
      (formatAux args cs none).map (fun s => String.singleton c ++ s)

/-- Python template.format(**args) for the named-field templates this
code configures. -/
def pyFormat (templateStr : String) (args : List (String × String)) : Except Err String :=
  formatAux args templateStr.toList none

/-- The four configured identity templates looked up by name via
getattr(oauth_settings, name). -/
inductive TemplateName where
  | userName
  | userEmail
  | userFirstname
  | userLastname
  deriving DecidableEq

/-- getattr(oauth_settings, name) for the identity templates. -/
def OauthSettings.getattrTemplate (os : OauthSettings) : TemplateName → String
  | .userName => os.userNameTemplate
  | .userEmail => os.userEmailTemplate
  | .userFirstname => os.userFirstnameTemplate
  | .userLastname => os.userLastnameTemplate

/-- views._expand_template: fetch the configured template and expand it
against the userinfo fields. -/
def expand_template (os : OauthSettings) (name : TemplateName)
    (args : List (String × String)) : Except Err String :=
  pyFormat (os.getattrTemplate name) args

/-- views.handle_logged_in: resolve an existing connection (a raising
lookup is swallowed and treated as no connection); with a connection,
redirect to the parsed LOGIN_REDIRECT, falling back to the webindex URL
when parsing raises; otherwise return none. -/
def handle_logged_in (senv : Settings) (fenv : FrameworkEnv) (connArg : Bool) :
    Option Response :=
  let conn :=
    if connArg then true
    else
      match fenv.getConnection with
      | .ok b => b
      | .error _ => false
  if conn then
    some (.redirect
      (match senv.loginRedirectParse with
        | .ok u => u
        | .error _ => senv.webindexUrl))
  else
    none

/-- views.handle_not_logged_in: build the authorization URL, store the
freshly generated CSRF state in the session, and render the sign-in
page. -/
def handle_not_logged_in (os : OauthSettings) (senv : Settings) (oenv : OAuthEnv)
    (sess : Session) : Response × Session :=
  let state := oenv.state
  let sess2 : Session := { sess with oauthState := some state }
  (.page "oauth/index.html"
    { authorizationUrl := oenv.authorizationUrl
      clientName := os.clientName
      loginLogo := senv.loginLogo },
    sess2)

/-- views.index: redirect when already logged in, else render the
sign-in page. -/
def index (os : OauthSettings) (senv : Settings) (fenv : FrameworkEnv)
    (oenv : OAuthEnv) (sess : Session) : Response × Session :=
  match handle_logged_in senv fenv false with
  | some r => (r, sess)
  | none => handle_not_logged_in os senv oenv sess

/-- views.get_session_for_user: mint a time-bounded session for the
named principal through the session service. -/
def get_session_for_user (os : OauthSettings) (aenv : AdminEnv) (omename : String) :
    Except Err String × List Event :=
  let ev := Event.createSessionWithTimeout omename "User" (os.userTimeout * 1000)
  match aenv.sessionUuid omename with
  | .ok u => (.ok u, [ev])
  | .error e => (.error (.exc e), [ev])

/-- The effective group name: OAUTH_GROUP_NAME, with strftime applied
to it when OAUTH_GROUP_NAME_TEMPLATETIME is set. -/
def oauth_group_name (os : OauthSettings) (aenv : AdminEnv) : String :=
  if os.groupNameTemplatetime then aenv.strftimeNow os.groupName else os.groupName

/-- views.get_or_create_group: default a falsy argument to the
configured group name, look the group up by name, and create it with
the configured permissions only when absent. -/
def get_or_create_group (os : OauthSettings) (aenv : AdminEnv)
    (groupnameArg : Option String) : Nat × List Event :=
  let groupname :=
    match groupnameArg with
    | none => oauth_group_name os aenv
    | some g => if g = "" then oauth_group_name os aenv else g
  let evL := Event.getObject "ExperimenterGroup" "name" groupname
  match aenv.lookupGroup groupname with
  | some gid => (gid, [evL])
  | none => (aenv.createGroupId, [evL, Event.createGroup groupname os.groupPerms])

/-- views.create_user: create the experimenter as a non-admin, active
user with only its default group and no local password. -/
def create_user (aenv : AdminEnv) (omename email firstname lastname : String)
    (groupid : Nat) : Nat × List Event :=
  (aenv.createUserId,
    [Event.createExperimenter omename firstname lastname email false true
      groupid [] none])

/-- views.get_or_create_account_and_session: obtain an administrative
connection (raising when it fails), look the account up by omeName,
create group and user only when absent, mint a session, and release the
connection in a finally block on both the success and the raising exit
paths. -/
def get_or_create_account_and_session (os : OauthSettings) (aenv : AdminEnv)
    (omename email firstname lastname : String) :
    Except Err (Nat × String) × List Event :=
  if aenv.connectOk then
    let evs0 := [Event.adminConnect, Event.getObject "Experimenter" "omeName" omename]
    match aenv.lookupExperimenter omename with
    | some uid =>
      match get_session_for_user os aenv omename with
      | (.ok s, evs) => (.ok (uid, s), evs0 ++ evs ++ [Event.adminClose])
      | (.error e, evs) => (.error e, evs0 ++ evs ++ [Event.adminClose])
    | none =>
      match get_or_create_group os aenv none with
      | (gid, evsG) =>
        match create_user aenv omename email firstname lastname gid with
        | (uid, evsC) =>
          match get_session_for_user os aenv omename with
          | (.ok s, evs) =>
            (.ok (uid, s), evs0 ++ evsG ++ evsC ++ evs ++ [Event.adminClose])
          | (.error e, evs) =>
            (.error e, evs0 ++ evsG ++ evsC ++ evs ++ [Event.adminClose])
  else
    (.error (.exc "Failed to get account (unable to obtain admin connection)"),
      [Event.adminConnect])

/-- views.login_with_session: use the minted session token as username
and as password, run the optional version check, create the framework
connection, store the connector in the web session, run the upgrade
check, and return the logged-in redirect, closing the connection in a
finally block.  A missing connection or an incompatible server raises a
generic Exception. -/
def login_with_session (senv : Settings) (fenv : FrameworkEnv) (cenv : ConnectorEnv)
    (req : Request) (sess : Session) (token : String) :
    Except Err Response × Session × List Event :=
  let username := token
  let password := token
  let evsV := if senv.checkVersion then [Event.checkVersion USERAGENT] else []
  let compatible := if senv.checkVersion then cenv.checkVersionOk else true
  if compatible then
    let evC := Event.createConnection USERAGENT username password req.clientIp
    if cenv.createConnectionOk then
      let sess2 : Session := { sess with connector := true }
      let upgradesUrl :=
        match senv.upgradesUrl with
        | some u => u
        | none => cenv.connUpgradesUrl
      let evs2 := [evC, Event.upgradeCheck upgradesUrl, Event.connClose]
      match handle_logged_in senv fenv true with
      | some resp => (.ok resp, sess2, evsV ++ evs2)
      | none => (.error (.exc "no response"), sess2, evsV ++ evs2)
    else
      (.error (.exc "Failed to login with session"), sess, evsV ++ [evC])
  else
    (.error (.exc "Incompatible server"), sess, evsV)

/-- The four sequential template expansions performed by views.callback,
stopping at the first raised error. -/
def expandIdentity (os : OauthSettings) (userinfo : List (String × String)) :
    Except Err (String × String × String × String) :=
  match expand_template os .userName userinfo with
  | .error e => .error e
  | .ok omename =>
    match expand_template os .userEmail userinfo with
    | .error e => .error e
    | .ok email =>
      match expand_template os .userFirstname userinfo with
      | .error e => .error e
      | .ok firstname =>
        match expand_template os .userLastname userinfo with
        | .error e => .error e
        | .ok lastname => .ok (omename, email, firstname, lastname)

/-- views.callback: reject a falsy stored state or a falsy code query
parameter with PermissionDenied before any external call; otherwise
exchange the code for a token, fetch userinfo, expand the identity
templates, resolve the account and session, and log the browser session
in.  The state query parameter returned by the provider is never read. -/
def callback (os : OauthSettings) (oenv : OAuthEnv) (aenv : AdminEnv)
    (senv : Settings) (fenv : FrameworkEnv) (cenv : ConnectorEnv)
    (req : Request) (sess : Session) :
    Except Err Response × Session × List Event :=
  let state :=
    match sess.oauthState with
    | none => ""
    | some s => s
  if state = "" then
    (.error (.permissionDenied "OAuth state missing"), sess, [])
  else
    let code :=
      match req.getCode with
      | none => ""
      | some c => c
    if code = "" then
      (.error (.permissionDenied "OAuth code missing"), sess, [])
    else
      let ev1 := Event.fetchToken os.urlToken os.clientId os.clientSecret state code
      match oenv.fetchToken state code with
      | .error e => (.error (.exc e), sess, [ev1])
      | .ok _token =>
        let ev2 := Event.getUserinfo os.urlUserinfo
        match expandIdentity os oenv.userinfo with
        | .error e => (.error e, sess, [ev1, ev2])
        | .ok (omename, email, firstname, lastname) =>
          match get_or_create_account_and_session os aenv omename email firstname lastname with
          | (.error e, evsA) => (.error e, sess, [ev1, ev2] ++ evsA)
          | (.ok (_uid, userSession), evsA) =>
            match login_with_session senv fenv cenv req sess userSession with
            | (r, sess2, evsL) => (r, sess2, [ev1, ev2] ++ evsA ++ evsL)

/-- views.test_login: obtain an administrative connection (asserting
success), mint a session for the named user, and log in with it.  No
close call appears on any path. -/
def test_login (os : OauthSettings) (aenv : AdminEnv) (senv : Settings)
    (fenv : FrameworkEnv) (cenv : ConnectorEnv) (req : Request) (sess : Session)
    (username : String) : Except Err Response × Session × List Event :=
  if aenv.connectOk then
    match get_session_for_user os aenv username with
    | (.error e, evs) => (.error e, sess, Event.adminConnect :: evs)
    | (.ok s, evs) =>
      match login_with_session senv fenv cenv req sess s with
      | (r, sess2, evsL) => (r, sess2, Event.adminConnect :: (evs ++ evsL))
  else
    (.error (.exc "AssertionError"), sess, [Event.adminConnect])

end OmeroOauth

namespace OmeroOauth

/-- Decidable equality of handler outcomes. -/
instance {ε α : Type} [DecidableEq ε] [DecidableEq α] : DecidableEq (Except ε α) := fun a b =>
  match a, b with
  | .ok x, .ok y => decidable_of_iff (x = y) (by simp)
  | .error x, .error y => decidable_of_iff (x = y) (by simp)
  | .ok _, .error _ => isFalse (fun h => Except.noConfusion h)
  | .error _, .ok _ => isFalse (fun h => Except.noConfusion h)

/-! ### Concrete environments used by witnesses and counterexamples -/

/-- A concrete operator configuration. -/
def osW : OauthSettings where
  clientId := "cid"
  clientScope := "openid"
  clientSecret := "csecret"
  clientName := "Provider"
  urlAuthorization := "https://idp/auth"
  urlToken := "https://idp/token"
  urlUserinfo := "https://idp/userinfo"
  userNameTemplate := "{login}"
  userEmailTemplate := "{mail}"
  userFirstnameTemplate := "{given_name}"
  userLastnameTemplate := "{family_name}"
  host := "omero.example"
  port := 4064
  adminUsername := "root"
  adminPassword := "rootpw"
  groupName := "oauth"
  groupNameTemplatetime := false
  groupPerms := "rw----"
  userTimeout := 3600

/-- A provider oracle whose token exchange succeeds and whose userinfo
carries the four fields the configured templates reference. -/
def oenvW : OAuthEnv where
  authorizationUrl := "https://idp/auth?response_type=code"
  state := "state-A"
  fetchToken := fun _ _ => .ok "access-token-1"
  userinfo := [("login", "alice"), ("mail", "a@example.org"),
    ("given_name", "Alice"), ("family_name", "Liddell")]

/-- An administrative oracle where alice already has an account. -/
def aenvHit : AdminEnv where
  connectOk := true
  lookupExperimenter := fun n => if n = "alice" then some 3 else none
  lookupGroup := fun _ => some 9
  createGroupId := 11
  createUserId := 7
  sessionUuid := fun _ => .ok "uuid-1234"
  strftimeNow := fun s => s

/-- Like aenvHit, but no account exists yet. -/
def aenvMiss : AdminEnv :=
  { aenvHit with lookupExperimenter := fun _ => none }

/-- Like aenvMiss, but the configured group does not exist either. -/
def aenvMissNoGroup : AdminEnv :=
  { aenvMiss with lookupGroup := fun _ => none }

/-- Like aenvHit, but session issuance raises. -/
def aenvRaise : AdminEnv :=
  { aenvHit with sessionUuid := fun _ => .error "session service down" }

/-- Concrete framework settings with a parseable LOGIN_REDIRECT. -/
def senvW : Settings where
  loginRedirectParse := .ok "/webclient"
  webindexUrl := "/webindex"
  secure := true
  checkVersion := false
  upgradesUrl := some "https://upgrades.example"
  loginLogo := none

/-- Framework lookup reporting no existing connection. -/
def fenvNone : FrameworkEnv where
  getConnection := .ok false

/-- Framework lookup reporting an existing valid connection. -/
def fenvConn : FrameworkEnv where
  getConnection := .ok true

/-- Framework lookup that raises (swallowed by handle_logged_in). -/
def fenvRaise : FrameworkEnv where
  getConnection := .error "connection resolution blew up"

/-- A connector oracle where version check and connection both succeed. -/
def cenvW : ConnectorEnv where
  checkVersionOk := true
  createConnectionOk := true
  connUpgradesUrl := "https://conn-upgrades.example"

/-- A callback request whose provider-returned state differs from the
session-stored one. -/
def reqMismatch : Request where
  getState := some "state-B"
  getCode := some "code-1"
  clientIp := "1.2.3.4"

/-- A session holding the CSRF state stored at authorization time. -/
def sessA : Session where
  oauthState := some "state-A"
  connector := false

/-! ### Claims -/

/-- C1: the spec requires that a callback whose provider-returned state
differs from the session-stored state is rejected before token
exchange, account lookup and session issuance.  The code never reads
the state query parameter of the callback request: at a concrete
request whose session stores state-A while the provider returned
state-B, the handler proceeds to the token exchange, the account
lookup and the session issuance and completes the login instead of
rejecting the request. -/
theorem C1_state_mismatch_not_rejected :
    sessA.oauthState = some "state-A" ∧
    reqMismatch.getState = some "state-B" ∧
    reqMismatch.getState ≠ sessA.oauthState ∧
    callback osW oenvW aenvHit senvW fenvNone cenvW reqMismatch sessA =
      (.ok (.redirect "/webclient"),
        { oauthState := some "state-A", connector := true },
        [Event.fetchToken "https://idp/token" "cid" "csecret" "state-A" "code-1",
          Event.getUserinfo "https://idp/userinfo",
          Event.adminConnect,
          Event.getObject "Experimenter" "omeName" "alice",
          Event.createSessionWithTimeout "alice" "User" 3600000,
          Event.adminClose,
          Event.createConnection USERAGENT "uuid-1234" "uuid-1234" "1.2.3.4",
          Event.upgradeCheck "https://upgrades.example",
          Event.connClose]) := by decide

/-- C2: a callback whose session-stored state is missing, or whose code
query parameter is missing, raises PermissionDenied with an empty
trace: no call to the identity provider, no account resolution and no
session issuance is attempted. -/
theorem C2_missing_state_or_code_rejected_before_network
    (os : OauthSettings) (oenv : OAuthEnv) (aenv : AdminEnv) (senv : Settings)
    (fenv : FrameworkEnv) (cenv : ConnectorEnv) (req : Request) (sess : Session)
    (h : sess.oauthState = none ∨ req.getCode = none) :
    ∃ msg, callback os oenv aenv senv fenv cenv req sess =
      (.error (.permissionDenied msg), sess, []) := by
  rcases h with h | h
  · exact ⟨"OAuth state missing", by simp [callback, h]⟩
  · rcases hs : sess.oauthState with _ | s
    · exact ⟨"OAuth state missing", by simp [callback, hs]⟩
    · by_cases he : s = ""
      · exact ⟨"OAuth state missing", by simp [callback, hs, he]⟩
      · exact ⟨"OAuth code missing", by simp [callback, hs, he, h]⟩

/-- Witness for C2 at the concrete request: the session stores no
state, and the callback is rejected with an empty trace. -/
theorem C2_missing_state_or_code_rejected_before_network_witness :
    (Session.mk none false).oauthState = none ∧
    ∃ msg, callback osW oenvW aenvHit senvW fenvNone cenvW reqMismatch
        (Session.mk none false) =
      (.error (.permissionDenied msg), Session.mk none false, []) :=
  ⟨rfl, C2_missing_state_or_code_rejected_before_network osW oenvW aenvHit senvW
    fenvNone cenvW reqMismatch (Session.mk none false) (Or.inl rfl)⟩

/-- C3 fails on the code: the test/debug login path acquires an
administrative connection and never releases it, even on its fully
successful path — at a concrete successful run the trace holds one
adminConnect and no adminClose. -/
theorem C3_counterexample_test_login_leaks :
    ((test_login osW aenvHit senvW fenvNone cenvW reqMismatch sessA "alice").2.2.countP
      Event.isAdminConnect = 1) ∧
    ((test_login osW aenvHit senvW fenvNone cenvW reqMismatch sessA "alice").2.2.countP
      Event.isAdminClose = 0) ∧
    (test_login osW aenvHit senvW fenvNone cenvW reqMismatch sessA "alice").1 =
      .ok (.redirect "/webclient") := by decide

/-- C3 amended: get_or_create_account_and_session releases the
administrative connection exactly once on every exit path after a
successful connect — whether session issuance succeeds or raises, the
release is the last administrative action of the trace; the test/debug
login path, by contrast, never releases its connection (see the
counterexample). -/
theorem C3_amended_account_resolution_releases_admin_connection
    (os : OauthSettings) (aenv : AdminEnv) (o e f l : String)
    (hc : aenv.connectOk = true) :
    ((get_or_create_account_and_session os aenv o e f l).2.countP
      Event.isAdminClose = 1) ∧
    ((get_or_create_account_and_session os aenv o e f l).2.getLast? =
      some Event.adminClose) := by
  rcases hl : aenv.lookupExperimenter o with _ | uid <;>
    rcases hs : aenv.sessionUuid o with e2 | u <;>
      rcases hg : aenv.lookupGroup (oauth_group_name os aenv) with _ | gid <;>
        simp [get_or_create_account_and_session, get_session_for_user,
          get_or_create_group, create_user, hc, hl, hs, hg, Event.isAdminClose,
          List.countP_cons, List.countP_nil]

/-- Witness for C3 amended on the raising path: with a session service
that raises, the connection is still released exactly once and last. -/
theorem C3_amended_account_resolution_releases_admin_connection_witness :
    aenvRaise.connectOk = true ∧
    (((get_or_create_account_and_session osW aenvRaise "alice" "a@example.org"
        "Alice" "Liddell").2.countP Event.isAdminClose = 1) ∧
      ((get_or_create_account_and_session osW aenvRaise "alice" "a@example.org"
        "Alice" "Liddell").2.getLast? = some Event.adminClose)) :=
  ⟨rfl, C3_amended_account_resolution_releases_admin_connection osW aenvRaise
    "alice" "a@example.org" "Alice" "Liddell" rfl⟩

/-- C4: when the login name already resolves to an existing account,
account resolution performs no creation call of any kind — the trace
is exactly connect, lookup, session issuance, release. -/
theorem C4_existing_account_no_creation
    (os : OauthSettings) (aenv : AdminEnv) (o e f l : String) (uid : Nat)
    (hc : aenv.connectOk = true)
    (hl : aenv.lookupExperimenter o = some uid) :
    (get_or_create_account_and_session os aenv o e f l).2 =
      [Event.adminConnect,
        Event.getObject "Experimenter" "omeName" o,
        Event.createSessionWithTimeout o "User" (os.userTimeout * 1000),
        Event.adminClose] ∧
    ((get_or_create_account_and_session os aenv o e f l).2.countP
      Event.isUserCreate = 0) ∧
    ((get_or_create_account_and_session os aenv o e f l).2.countP
      Event.isGroupCreate = 0) := by
  rcases hs : aenv.sessionUuid o with e2 | u <;>
    simp [get_or_create_account_and_session, get_session_for_user, hc, hl, hs,
      Event.isUserCreate, Event.isGroupCreate, List.countP_cons, List.countP_nil]

/-- Witness for C4: alice already has an account; the trace is the
four-call sequence with no creation calls. -/
theorem C4_existing_account_no_creation_witness :
    aenvHit.connectOk = true ∧
    aenvHit.lookupExperimenter "alice" = some 3 ∧
    ((get_or_create_account_and_session osW aenvHit "alice" "a@example.org"
        "Alice" "Liddell").2 =
      [Event.adminConnect,
        Event.getObject "Experimenter" "omeName" "alice",
        Event.createSessionWithTimeout "alice" "User" (osW.userTimeout * 1000),
        Event.adminClose] ∧
      ((get_or_create_account_and_session osW aenvHit "alice" "a@example.org"
        "Alice" "Liddell").2.countP Event.isUserCreate = 0) ∧
      ((get_or_create_account_and_session osW aenvHit "alice" "a@example.org"
        "Alice" "Liddell").2.countP Event.isGroupCreate = 0)) :=
  ⟨rfl, rfl, C4_existing_account_no_creation osW aenvHit "alice" "a@example.org"
    "Alice" "Liddell" 3 rfl rfl⟩

/-- C5: with userinfo login alice, mail a@example.org and the templates
referencing exactly those fields, the login-name template expands to
alice and the email template to a@example.org; account resolution looks
up omeName alice, and when no such account exists it performs exactly
one user creation and at most one group creation (none when the
configured group already exists), returning the created account
identifier together with a session token distinct from it. -/
theorem C5_alice_lookup_and_single_creation
    (os : OauthSettings) (aenv : AdminEnv) (f l u : String)
    (hN : os.userNameTemplate = "{login}")
    (hE : os.userEmailTemplate = "{mail}")
    (hc : aenv.connectOk = true)
    (hmiss : aenv.lookupExperimenter "alice" = none)
    (hsess : aenv.sessionUuid "alice" = .ok u)
    (hdist : u ≠ toString aenv.createUserId) :
    expand_template os .userName
      [("login", "alice"), ("mail", "a@example.org")] = .ok "alice" ∧
    expand_template os .userEmail
      [("login", "alice"), ("mail", "a@example.org")] = .ok "a@example.org" ∧
    Event.getObject "Experimenter" "omeName" "alice" ∈
      (get_or_create_account_and_session os aenv "alice" "a@example.org" f l).2 ∧
    ((get_or_create_account_and_session os aenv "alice" "a@example.org" f l).2.countP
      Event.isUserCreate = 1) ∧
    ((get_or_create_account_and_session os aenv "alice" "a@example.org" f l).2.countP
      Event.isGroupCreate ≤ 1) ∧
    (∀ gid, aenv.lookupGroup (oauth_group_name os aenv) = some gid →
      (get_or_create_account_and_session os aenv "alice" "a@example.org" f l).2.countP
        Event.isGroupCreate = 0) ∧
    (get_or_create_account_and_session os aenv "alice" "a@example.org" f l).1 =
      .ok (aenv.createUserId, u) ∧
    u ≠ toString aenv.createUserId := by
  have hexp1 : expand_template os .userName
      [("login", "alice"), ("mail", "a@example.org")] = .ok "alice" := by
    simp only [expand_template, OauthSettings.getattrTemplate, hN]
    decide
  have hexp2 : expand_template os .userEmail
      [("login", "alice"), ("mail", "a@example.org")] = .ok "a@example.org" := by
    simp only [expand_template, OauthSettings.getattrTemplate, hE]
    decide
  rcases hg : aenv.lookupGroup (oauth_group_name os aenv) with _ | gid <;>
    refine ⟨hexp1, hexp2, ?_, ?_, ?_, ?_, ?_, hdist⟩ <;>
      simp [get_or_create_account_and_session, get_session_for_user,
        get_or_create_group, create_user, hc, hmiss, hsess, hg,
        Event.isUserCreate, Event.isGroupCreate, List.countP_cons, List.countP_nil]

/-- Witness for C5: no account named alice, the configured group
missing as well, createUserId 7, session uuid-1234. -/
theorem C5_alice_lookup_and_single_creation_witness :
    osW.userNameTemplate = "{login}" ∧
    osW.userEmailTemplate = "{mail}" ∧
    aenvMissNoGroup.connectOk = true ∧
    aenvMissNoGroup.lookupExperimenter "alice" = none ∧
    aenvMissNoGroup.sessionUuid "alice" = .ok "uuid-1234" ∧
    "uuid-1234" ≠ toString aenvMissNoGroup.createUserId ∧
    (expand_template osW .userName
      [("login", "alice"), ("mail", "a@example.org")] = .ok "alice" ∧
    expand_template osW .userEmail
      [("login", "alice"), ("mail", "a@example.org")] = .ok "a@example.org" ∧
    Event.getObject "Experimenter" "omeName" "alice" ∈
      (get_or_create_account_and_session osW aenvMissNoGroup "alice"
        "a@example.org" "Alice" "Liddell").2 ∧
    ((get_or_create_account_and_session osW aenvMissNoGroup "alice"
        "a@example.org" "Alice" "Liddell").2.countP Event.isUserCreate = 1) ∧
    ((get_or_create_account_and_session osW aenvMissNoGroup "alice"
        "a@example.org" "Alice" "Liddell").2.countP Event.isGroupCreate ≤ 1) ∧
    (∀ gid, aenvMissNoGroup.lookupGroup (oauth_group_name osW aenvMissNoGroup) =
        some gid →
      (get_or_create_account_and_session osW aenvMissNoGroup "alice"
        "a@example.org" "Alice" "Liddell").2.countP Event.isGroupCreate = 0) ∧
    (get_or_create_account_and_session osW aenvMissNoGroup "alice"
        "a@example.org" "Alice" "Liddell").1 =
      .ok (aenvMissNoGroup.createUserId, "uuid-1234") ∧
    "uuid-1234" ≠ toString aenvMissNoGroup.createUserId) :=
  ⟨rfl, rfl, rfl, rfl, rfl, by decide,
    C5_alice_lookup_and_single_creation osW aenvMissNoGroup "Alice" "Liddell"
      "uuid-1234" rfl rfl rfl rfl rfl (by decide)⟩

/-- C6: every user-creation call issued by account resolution creates a
non-admin, active user with an empty other-group list and no local
password. -/
theorem C6_created_user_is_nonadmin_active_no_groups_no_password
    (os : OauthSettings) (aenv : AdminEnv) (o e f l : String)
    (om fn ln em : String) (ia act : Bool) (dg : Nat) (og : List Nat)
    (pw : Option String)
    (hmem : Event.createExperimenter om fn ln em ia act dg og pw ∈
      (get_or_create_account_and_session os aenv o e f l).2) :
    ia = false ∧ act = true ∧ og = [] ∧ pw = none := by
  by_cases hc : aenv.connectOk <;>
    rcases hl : aenv.lookupExperimenter o with _ | uid <;>
      rcases hs : aenv.sessionUuid o with e2 | u <;>
        rcases hg : aenv.lookupGroup (oauth_group_name os aenv) with _ | gid <;>
          simp [get_or_create_account_and_session, get_session_for_user,
            get_or_create_group, create_user, hc, hl, hs, hg] at hmem <;>
          simp_all

/-- Witness for C6: the concrete user creation for alice in the default
group carries the required field values. -/
theorem C6_created_user_is_nonadmin_active_no_groups_no_password_witness :
    (Event.createExperimenter "alice" "Alice" "Liddell" "a@example.org"
        false true 9 [] none ∈
      (get_or_create_account_and_session osW aenvMiss "alice" "a@example.org"
        "Alice" "Liddell").2) ∧
    (false = false ∧ true = true ∧ ([] : List Nat) = [] ∧
      (none : Option String) = none) :=
  ⟨by decide,
    C6_created_user_is_nonadmin_active_no_groups_no_password osW aenvMiss
      "alice" "a@example.org" "Alice" "Liddell" "alice" "Alice" "Liddell"
      "a@example.org" false true 9 [] none (by decide)⟩

/-- C7: when the request already carries a valid server connection, the
index handler returns a redirect to the parsed configured landing URL,
falling back to the default index URL when parsing raises, and never
renders the sign-in page. -/
theorem C7_logged_in_redirects_never_renders
    (os : OauthSettings) (senv : Settings) (fenv : FrameworkEnv)
    (oenv : OAuthEnv) (sess : Session)
    (h : fenv.getConnection = .ok true) :
    index os senv fenv oenv sess =
      (.redirect
        (match senv.loginRedirectParse with
          | .ok u => u
          | .error _ => senv.webindexUrl), sess) := by
  rcases hp : senv.loginRedirectParse with e | u <;>
    simp [index, handle_logged_in, h, hp]

/-- Witness for C7: with an existing connection and a parseable landing
URL the index handler redirects there. -/
theorem C7_logged_in_redirects_never_renders_witness :
    fenvConn.getConnection = .ok true ∧
    index osW senvW fenvConn oenvW sessA =
      (.redirect
        (match senvW.loginRedirectParse with
          | .ok u => u
          | .error _ => senvW.webindexUrl), sessA) :=
  ⟨rfl, C7_logged_in_redirects_never_renders osW senvW fenvConn oenvW sessA rfl⟩

/-- C8: when no valid connection exists — whether the lookup reports
none or raises, the exception being swallowed — the index handler
renders the sign-in page and stores the freshly generated, non-empty
CSRF state in the session, overwriting whatever was there. -/
theorem C8_not_logged_in_renders_and_stores_state
    (os : OauthSettings) (senv : Settings) (fenv : FrameworkEnv)
    (oenv : OAuthEnv) (sess : Session)
    (h : fenv.getConnection = .ok false ∨ ∃ e, fenv.getConnection = .error e)
    (hs : oenv.state ≠ "") :
    index os senv fenv oenv sess =
      (.page "oauth/index.html"
        { authorizationUrl := oenv.authorizationUrl
          clientName := os.clientName
          loginLogo := senv.loginLogo },
        { oauthState := some oenv.state, connector := sess.connector }) ∧
    (index os senv fenv oenv sess).2.oauthState ≠ some "" := by
  rcases h with h | ⟨e, h⟩ <;>
    simp [index, handle_logged_in, handle_not_logged_in, h, hs]

/-- Witness for C8 on the raising path: the connection lookup raises,
the exception is swallowed, the sign-in page is rendered and the
non-empty state state-A is stored in the session. -/
theorem C8_not_logged_in_renders_and_stores_state_witness :
    (∃ e, fenvRaise.getConnection = .error e) ∧
    oenvW.state ≠ "" ∧
    (index osW senvW fenvRaise oenvW (Session.mk none false) =
      (.page "oauth/index.html"
        { authorizationUrl := oenvW.authorizationUrl
          clientName := osW.clientName
          loginLogo := senvW.loginLogo },
        { oauthState := some oenvW.state, connector := false }) ∧
    (index osW senvW fenvRaise oenvW (Session.mk none false)).2.oauthState ≠
      some "") :=
  ⟨⟨"connection resolution blew up", rfl⟩, by decide,
    C8_not_logged_in_renders_and_stores_state osW senvW fenvRaise oenvW
      (Session.mk none false)
      (Or.inr ⟨"connection resolution blew up", rfl⟩) (by decide)⟩

/-- C9: whenever the framework login performs its session-creation
call, the minted image-server session token is passed as both the
username and the password credential. -/
theorem C9_session_token_is_both_credentials
    (senv : Settings) (fenv : FrameworkEnv) (cenv : ConnectorEnv)
    (req : Request) (sess : Session) (token ua un pw ip : String)
    (hmem : Event.createConnection ua un pw ip ∈
      (login_with_session senv fenv cenv req sess token).2.2) :
    un = token ∧ pw = token := by
  by_cases hv : senv.checkVersion <;>
    by_cases hco : cenv.checkVersionOk <;>
      by_cases hcc : cenv.createConnectionOk <;>
        rcases hp : senv.loginRedirectParse with e | u <;>
          simp [login_with_session, handle_logged_in, hv, hco, hcc, hp,
            USERAGENT] at hmem <;>
          simp_all

/-- Witness for C9: a concrete login in which the connector is called
with the token as both credentials. -/
theorem C9_session_token_is_both_credentials_witness :
    (Event.createConnection USERAGENT "uuid-1234" "uuid-1234" "1.2.3.4" ∈
      (login_with_session senvW fenvNone cenvW reqMismatch sessA
        "uuid-1234").2.2) ∧
    ("uuid-1234" = "uuid-1234" ∧ "uuid-1234" = "uuid-1234") :=
  ⟨by decide,
    C9_session_token_is_both_credentials senvW fenvNone cenvW reqMismatch sessA
      "uuid-1234" USERAGENT "uuid-1234" "uuid-1234" "1.2.3.4" (by decide)⟩

/-- C10: when the stored state and the code are present and the token
exchange succeeds but a configured identity template references a field
absent from the userinfo payload, the callback propagates the unchecked
KeyError — not an access-denied outcome — and its trace stops at the
two provider calls: no account resolution and no session issuance
occurs. -/
theorem C10_missing_userinfo_field_raises_keyerror_without_admin_calls
    (os : OauthSettings) (oenv : OAuthEnv) (aenv : AdminEnv) (senv : Settings)
    (fenv : FrameworkEnv) (cenv : ConnectorEnv) (req : Request) (sess : Session)
    (s c t k : String)
    (hstate : sess.oauthState = some s) (hs : s ≠ "")
    (hcode : req.getCode = some c) (hc : c ≠ "")
    (htok : oenv.fetchToken s c = .ok t)
    (hexp : expandIdentity os oenv.userinfo = .error (.keyError k)) :
    callback os oenv aenv senv fenv cenv req sess =
      (.error (.keyError k), sess,
        [Event.fetchToken os.urlToken os.clientId os.clientSecret s c,
          Event.getUserinfo os.urlUserinfo]) := by
  simp [callback, hstate, hs, hcode, hc, htok, hexp]

/-- Witness for C10: with userinfo lacking the login field referenced
by the configured login-name template the callback raises KeyError
login after the two provider calls, with no administrative call. -/
theorem C10_missing_userinfo_field_raises_keyerror_without_admin_calls_witness :
    sessA.oauthState = some "state-A" ∧
    reqMismatch.getCode = some "code-1" ∧
    (OAuthEnv.mk "https://idp/auth?response_type=code" "state-A"
        (fun _ _ => .ok "access-token-1")
        [("mail", "a@example.org")]).fetchToken "state-A" "code-1" =
      .ok "access-token-1" ∧
    expandIdentity osW
        (OAuthEnv.mk "https://idp/auth?response_type=code" "state-A"
          (fun _ _ => .ok "access-token-1")
          [("mail", "a@example.org")]).userinfo = .error (.keyError "login") ∧
    callback osW
        (OAuthEnv.mk "https://idp/auth?response_type=code" "state-A"
          (fun _ _ => .ok "access-token-1")
          [("mail", "a@example.org")]) aenvHit senvW fenvNone cenvW
        reqMismatch sessA =
      (.error (.keyError "login"), sessA,
        [Event.fetchToken osW.urlToken osW.clientId osW.clientSecret
          "state-A" "code-1",
          Event.getUserinfo osW.urlUserinfo]) :=
  ⟨rfl, rfl, rfl, by decide,
    C10_missing_userinfo_field_raises_keyerror_without_admin_calls osW
      (OAuthEnv.mk "https://idp/auth?response_type=code" "state-A"
        (fun _ _ => .ok "access-token-1")
        [("mail", "a@example.org")]) aenvHit senvW fenvNone cenvW reqMismatch
      sessA "state-A" "code-1" "access-token-1" "login"
      rfl (by decide) rfl (by decide) rfl (by decide)⟩

end OmeroOauth
